import Mathlib

/-!
Shallow embedding of `src/api/download.go` of omekov/gocommerce: the
download-access pipeline (`DownloadURL`) and the download listing
(`DownloadList`), together with the parts of the `models` package and the
helpers the spec describes but that are not under `src/`.

Machine conventions: timestamps are `Int` seconds (the Go code compares
`created_at > time.Now().Add(-24*time.Hour)`); database state is a record of
lists; the effects of the HTTP handler are modelled by returning the outcome, the
new database state and a trace of the external interactions (store queries,
the signing capability call, the audit transaction commit). Fallible
collaborators (the URL signer, the audit transaction commit) are driven by
explicit fault flags, mirroring a forced failure of that collaborator.
-/

set_option autoImplicit false

namespace GoCommerce

/-- JWT claims of the caller, as used by `download.go`: `claims.Subject` is the
caller identity; the administrative capability backs the
`CheckOwnership` predicate of the spec. `none` models a request with no verified identity. -/
structure Claims where
  subject : String
  isAdmin : Bool
deriving DecidableEq

/-- `models.Order` as used by `download.go`: identity, owning user,
`payment_state`. -/
structure Order where
  id : String
  userID : String
  paymentState : String
deriving DecidableEq

/-- `models.Download` as used by `download.go`: identity, owning order,
`download_count`, and the ephemeral signed-URL metadata filled by `SignURL`. -/
structure Download where
  id : String
  orderID : String
  downloadCount : Nat
  url : String
deriving DecidableEq

/-- Event kinds; `download.go` only emits `models.EventUpdated`. -/
inductive EventKind where
  | created
  | updated
deriving DecidableEq

/-- `models.Event` as used by the rate-limit query and the audit append:
owning order, source address (`ip`), actor identity, kind, change tags, and
creation timestamp. -/
structure Event where
  orderID : String
  ip : String
  actor : String
  kind : EventKind
  changes : List String
  createdAt : Int
deriving DecidableEq

/-- The relational store visible to `download.go`: the downloads table, the
orders table, and the append-only event ledger. -/
structure DB where
  downloads : List Download
  orders : List Order
  events : List Event
deriving DecidableEq

/-- `const maxIPsPerDay = 50` (src/api/download.go line 13). -/
def maxIPsPerDay : Nat := 50

/-- Modelled from the spec: `models.PaidState` is not under `src/`; the spec
gives `payment_state ∈ \x7bunpaid, paid, ...\x7d` and `CheckPaid(order)` true iff
`payment_state == paid`. -/
def PaidState : String := "paid"

/-- The error taxonomy of the handlers: NotFound, Unauthorized, BadRequest,
InternalError, each with its user-visible message. -/
inductive ApiError where
  | notFound (msg : String)
  | unauthorized (msg : String)
  | internalServer (msg : String)
  | badRequest (msg : String)
deriving DecidableEq

/-- Outcome of a handler: a success value, a failed request, or `crash` for an
execution that dereferences a nil pointer (undefined behaviour surfaced as a
runtime panic in Go). -/
inductive Outcome (α : Type) where
  | ok (val : α)
  | err (e : ApiError)
  | crash
deriving DecidableEq

/-- Externally visible interactions of a handler run, in order: a query
against the store, a call of the URL-signing capability, a commit of the
audit transaction. -/
inductive Step where
  | storeQuery
  | signCall
  | txCommit
deriving DecidableEq

/-- `db.Where("id = ?", downloadID).First(download)` (line 25): the first
download whose id matches, if any. -/
def findDownload (db : DB) (id : String) : Option Download :=
  db.downloads.find? (fun d => d.id == id)

/-- `db.Where("id = ?", download.OrderID).First(order)` (line 33): the first
order whose id matches, if any. -/
def findOrder (db : DB) (id : String) : Option Order :=
  db.orders.find? (fun o => o.id == id)

/-- Modelled from the spec: `hasOrderAccess` is defined outside `src/` (only
its call sites are present). Per the spec, `CheckOwnership(callerContext,
order)` is true if the caller is the owner of the order or holds an
administrative capability, false otherwise, with no side effects. -/
def hasOrderAccess (claims : Option Claims) (order : Order) : Bool :=
  match claims with
  | none => false
  | some c => c.subject == order.userID || c.isAdmin

/-- The row filter of the rate-limit query (lines 48-51):
`order_id = ? and created_at > ? and changes = (the SQL-quoted tag download)` with the time
parameter `time.Now().Add(-24*time.Hour)`. The `changes` column is compared
for equality with the single tag `download`. -/
def isDownloadEventRow (orderID : String) (now : Int) (e : Event) : Bool :=
  e.orderID == orderID && decide (now - 24*60*60 < e.createdAt) && e.changes == ["download"]

/-- `Select("count(distinct(ip)))` over the rows matched by
`isDownloadEventRow` (lines 48-61): the number of distinct source addresses. -/
def countDistinctDownloadIPs (events : List Event) (orderID : String) (now : Int) : Nat :=
  (((events.filter (isDownloadEventRow orderID now)).map Event.ip).dedup).length

/-- The actor identity recorded for the audit event (lines 72-75): the
subject of the claims, or the empty string when the caller is anonymous. -/
def eventSubject (claims : Option Claims) : String :=
  match claims with
  | none => ""
  | some c => c.subject

/-- Modelled from the spec: `models.LogEvent` is not under `src/`. Per the
spec, the Audit Recorder "appends one Event entry for the owning order with
kind=updated, change tag [download], actor=actorIdentity (or empty if
anonymous), address=sourceAddress, timestamp=now". -/
def LogEvent (events : List Event) (ip userID orderID : String) (kind : EventKind)
    (changes : List String) (now : Int) : List Event :=
  events ++ [⟨orderID, ip, userID, kind, changes, now⟩]

/-- Modelled from the spec: `models.Download.SignURL` is not under `src/`.
Per the spec, `SignURL(assetReference) -> (url, expiry) | error` produces a
time-bounded signed URL; the embedding stores it in the ephemeral
URL metadata of the download, while failure of the capability is driven by the `signErr`
fault flag of `DownloadURL`. -/
def signURL (d : Download) : Download :=
  { d with url := "signed:" ++ d.id }

/-- `UPDATE downloads SET download_count = download_count + 1 WHERE id = ?`
(line 71, `gorm.Expr("download_count + 1")` keyed by the id of the download). -/
def incrementDownloadCount (downloads : List Download) (id : String) : List Download :=
  downloads.map (fun d => if d.id == id then { d with downloadCount := d.downloadCount + 1 } else d)

/-- Result of a `DownloadURL` run: the response, the store afterwards, and
the interaction trace. -/
structure DownloadResult where
  response : Outcome Download
  db : DB
  trace : List Step
deriving DecidableEq

/-- `(*API).DownloadURL` (src/api/download.go lines 16-80), line by line:
load the download (NotFound if absent), load its order (NotFound if absent),
`hasOrderAccess` (Unauthorized if false), `PaymentState != PaidState`
(Unauthorized), the distinct-IP count over the trailing day (Unauthorized if
above `maxIPsPerDay`), `download.SignURL` (InternalError on failure, driven
by `signErr`), then `tx := db.Begin()`, the counter increment, the
`models.LogEvent` append, and `tx.Commit()` whose error the code ignores:
when the commit fails (`commitErr`) the store is unchanged and the handler
still answers `sendJSON(w, http.StatusOK, download)`. -/
def DownloadURL (db : DB) (downloadID : String) (claims : Option Claims)
    (remoteAddr : String) (now : Int) (signErr commitErr : Bool) : DownloadResult :=
  match findDownload db downloadID with
  | none => ⟨.err (.notFound "Download not found"), db, [.storeQuery]⟩
  | some download =>
    match findOrder db download.orderID with
    | none => ⟨.err (.notFound "Download order not found"), db, [.storeQuery, .storeQuery]⟩
    | some order =>
      if !hasOrderAccess claims order then
        ⟨.err (.unauthorized "Not Authorized to access this download"), db,
          [.storeQuery, .storeQuery]⟩
      else if order.paymentState != PaidState then
        ⟨.err (.unauthorized "This download has not been paid yet"), db,
          [.storeQuery, .storeQuery]⟩
      else if countDistinctDownloadIPs db.events order.id now > maxIPsPerDay then
        ⟨.err (.unauthorized "This download has been accessed from too many IPs within the last day"),
          db, [.storeQuery, .storeQuery, .storeQuery]⟩
      else if signErr then
        ⟨.err (.internalServer "Error signing download"), db,
          [.storeQuery, .storeQuery, .storeQuery, .signCall]⟩
      else if commitErr then
        ⟨.ok (signURL download), db,
          [.storeQuery, .storeQuery, .storeQuery, .signCall, .txCommit]⟩
      else
        ⟨.ok (signURL download),
          { db with
              downloads := incrementDownloadCount db.downloads download.id,
              events := LogEvent db.events remoteAddr (eventSubject claims) order.id
                EventKind.updated ["download"] now },
          [.storeQuery, .storeQuery, .storeQuery, .signCall, .txCommit]⟩

/-- Modelled from the spec: `paginate` is not under `src/` (only its call
site, line 122). Per the spec, "Offset/limit are caller-supplied and must be
validated as non-negative and bounded; invalid values produce a
BadRequest-class failure", and invalid values fail "without touching the
store": validation is pure and precedes any store access by `paginate`. -/
def paginate (offset limit : Int) : Option ApiError :=
  if offset < 0 || limit < 0 then some (.badRequest "Bad Pagination Parameters") else none

/-- The join of lines 111-120: downloads whose owning order exists, has
`payment_state = paid` (SQL-quoted), and satisfies the scoping predicate (either
`orders.id = ?` or `orders.user_id = ?`). -/
def joinedPaidDownloads (db : DB) (keep : Order → Bool) : List Download :=
  db.downloads.filter (fun d =>
    db.orders.any (fun o => o.id == d.orderID && o.paymentState == PaidState && keep o))

/-- Result of a `DownloadList` run: the response and the interaction trace
(the listing never writes). -/
structure ListResult where
  response : Outcome (List Download)
  trace : List Step
deriving DecidableEq

/-- `(*API).DownloadList` (src/api/download.go lines 83-134), line by line:
when an order id is in the request context, load that order (NotFound if
absent; a store query), check `hasOrderAccess` and `PaymentState`
(Unauthorized); build the paid-orders join scoped by the order id, or,
without an order id, scoped by `claims.Subject` - dereferenced without a nil
check (line 119), so an anonymous caller crashes before `paginate` runs;
then `paginate` (BadRequest on invalid offset/limit) and finally the
`Find` query against the store. -/
def DownloadList (db : DB) (orderID : String) (claims : Option Claims)
    (offset limit : Int) : ListResult :=
  if orderID != "" then
    match findOrder db orderID with
    | none => ⟨.err (.notFound "Download order not found"), [.storeQuery]⟩
    | some order =>
      if !hasOrderAccess claims order then
        ⟨.err (.unauthorized "You don't have permission to access this order"), [.storeQuery]⟩
      else if order.paymentState != PaidState then
        ⟨.err (.unauthorized "This order has not been completed yet"), [.storeQuery]⟩
      else
        match paginate offset limit with
        | some e => ⟨.err e, [.storeQuery]⟩
        | none =>
          ⟨.ok (((joinedPaidDownloads db (fun o => o.id == order.id)).drop offset.toNat).take
              limit.toNat),
            [.storeQuery, .storeQuery]⟩
  else
    match claims with
    | none => ⟨.crash, []⟩
    | some c =>
      match paginate offset limit with
      | some e => ⟨.err e, []⟩
      | none =>
        ⟨.ok (((joinedPaidDownloads db (fun o => o.userID == c.subject)).drop offset.toNat).take
            limit.toNat),
          [.storeQuery]⟩

/-- The Rate Limiter count as the spec words it:
`CountDistinctAccessIPs(orderID, now)` "counts distinct source addresses
among Ledger entries for orderID whose change-tag set contains download and
whose timestamp lies in the half-open interval (now - 24h, now]". -/
def specCountDistinctAccessIPs (events : List Event) (orderID : String) (now : Int) : Nat :=
  (((events.filter (fun e =>
      e.orderID == orderID && e.changes.contains "download" &&
      decide (now - 24*60*60 < e.createdAt) && decide (e.createdAt ≤ now))).map Event.ip).toFinset).card

/-- The Rate Limiter count as the code forces the wording of the spec to be
amended: distinct source addresses among Ledger entries for the order whose
change-tag list is exactly [download] and whose timestamp is strictly later
than now - 24h, with no upper bound at now. -/
def amendedCountDistinctAccessIPs (events : List Event) (orderID : String) (now : Int) : Nat :=
  (((events.filter (fun e =>
      e.orderID == orderID && e.changes == ["download"] &&
      decide (now - 24*60*60 < e.createdAt))).map Event.ip).toFinset).card

/-- Claim C2: for every order whose payment state is not paid and for every
caller (owner, admin, anonymous, or stranger), the download-access operation
fails with an Unauthorized error; ownership of the order does not change the
failure kind. -/
theorem downloadURL_unpaid_always_unauthorized (db : DB) (did : String) (claims : Option Claims)
    (addr : String) (now : Int) (signErr commitErr : Bool) (d : Download) (o : Order)
    (hd : findDownload db did = some d) (ho : findOrder db d.orderID = some o)
    (hunpaid : o.paymentState ≠ PaidState) :
    ∃ msg, (DownloadURL db did claims addr now signErr commitErr).response =
      Outcome.err (ApiError.unauthorized msg) := by
  unfold DownloadURL
  by_cases hacc : hasOrderAccess claims o
  · exact ⟨"This download has not been paid yet", by simp [hd, ho, hacc, hunpaid]⟩
  · exact ⟨"Not Authorized to access this download", by simp [hd, ho, hacc]⟩

/-- Concrete instance of the theorem for claim C2: an unpaid order, owner caller. -/
theorem downloadURL_unpaid_always_unauthorized_witness :
    ∃ msg, (DownloadURL ⟨[⟨"D2", "O2", 0, ""⟩], [⟨"O2", "U1", "pending"⟩], []⟩ "D2"
        (some ⟨"U1", false⟩) "1.2.3.4" 1000 false false).response =
      Outcome.err (ApiError.unauthorized msg) :=
  downloadURL_unpaid_always_unauthorized _ _ _ _ _ _ _ ⟨"D2", "O2", 0, ""⟩ ⟨"O2", "U1", "pending"⟩
    rfl rfl (by decide)

/-- Claim C3: for every caller that is neither the owner of the owning order
nor an administrator, the download-access operation fails with an
Unauthorized error, whatever the payment state of the order. -/
theorem downloadURL_stranger_unauthorized (db : DB) (did : String) (claims : Option Claims)
    (addr : String) (now : Int) (signErr commitErr : Bool) (d : Download) (o : Order)
    (hd : findDownload db did = some d) (ho : findOrder db d.orderID = some o)
    (hno : ∀ c, claims = some c → c.subject ≠ o.userID ∧ c.isAdmin = false) :
    (DownloadURL db did claims addr now signErr commitErr).response =
      Outcome.err (ApiError.unauthorized "Not Authorized to access this download") := by
  have hacc : hasOrderAccess claims o = false := by
    cases claims with
    | none => rfl
    | some c =>
      obtain ⟨h1, h2⟩ := hno c rfl
      simp [hasOrderAccess, h1, h2]
  unfold DownloadURL
  simp [hd, ho, hacc]

/-- Concrete instance of the theorem for claim C3: a paid order, stranger caller. -/
theorem downloadURL_stranger_unauthorized_witness :
    (DownloadURL ⟨[⟨"D1", "O1", 0, ""⟩], [⟨"O1", "U1", "paid"⟩], []⟩ "D1"
        (some ⟨"U2", false⟩) "1.2.3.4" 1000 false false).response =
      Outcome.err (ApiError.unauthorized "Not Authorized to access this download") :=
  downloadURL_stranger_unauthorized _ _ _ _ _ _ _ ⟨"D1", "O1", 0, ""⟩ ⟨"O1", "U1", "paid"⟩
    rfl rfl (by decide)

/-- Claim C7: whenever the download-access operation terminates with a
NotFound or Unauthorized failure, the store is left exactly as before the
call: no download counter increment and no new ledger event. -/
theorem downloadURL_failure_leaves_store_unchanged (db : DB) (did : String)
    (claims : Option Claims) (addr : String) (now : Int) (signErr commitErr : Bool)
    (e : ApiError)
    (hresp : (DownloadURL db did claims addr now signErr commitErr).response = Outcome.err e)
    (_hkind : (∃ m, e = ApiError.notFound m) ∨ (∃ m, e = ApiError.unauthorized m)) :
    (DownloadURL db did claims addr now signErr commitErr).db = db := by
  obtain hd | ⟨d, hd⟩ := Option.eq_none_or_eq_some (findDownload db did)
  · unfold DownloadURL
    simp [hd]
  · obtain ho | ⟨o, ho⟩ := Option.eq_none_or_eq_some (findOrder db d.orderID)
    · unfold DownloadURL
      simp [hd, ho]
    · by_cases hacc : hasOrderAccess claims o
      · by_cases hpaid : o.paymentState = PaidState
        · by_cases hrate : countDistinctDownloadIPs db.events o.id now > maxIPsPerDay
          · unfold DownloadURL
            simp [hd, ho, hacc, hpaid, hrate]
          · cases signErr with
            | true =>
              unfold DownloadURL
              simp [hd, ho, hacc, hpaid, hrate]
            | false =>
              cases commitErr with
              | true =>
                unfold DownloadURL
                simp [hd, ho, hacc, hpaid, hrate]
              | false =>
                unfold DownloadURL at hresp
                simp [hd, ho, hacc, hpaid, hrate] at hresp
        · unfold DownloadURL
          simp [hd, ho, hacc, hpaid]
      · unfold DownloadURL
        simp [hd, ho, hacc]

/-- Concrete instance of the theorem for claim C7: an Unauthorized run leaves the store unchanged. -/
theorem downloadURL_failure_leaves_store_unchanged_witness :
    (DownloadURL ⟨[⟨"D2", "O2", 0, ""⟩], [⟨"O2", "U1", "pending"⟩], []⟩ "D2"
        (some ⟨"U1", false⟩) "1.2.3.4" 1000 false false).db =
      ⟨[⟨"D2", "O2", 0, ""⟩], [⟨"O2", "U1", "pending"⟩], []⟩ :=
  downloadURL_failure_leaves_store_unchanged _ _ _ _ _ _ _
    (ApiError.unauthorized "This download has not been paid yet") (by decide)
    (Or.inr ⟨_, rfl⟩)

/-- Claim C10: the listing without an order identity dereferences the caller
claims unconditionally; an anonymous caller makes the operation undefined
(nil dereference, modelled as a crash outcome), while a caller with an
identity never reaches the undefined behaviour on that path. -/
theorem downloadList_anonymous_user_scope_undefined (db : DB) (offset limit : Int) :
    DownloadList db "" none offset limit = ⟨Outcome.crash, []⟩ ∧
    ∀ c : Claims, (DownloadList db "" (some c) offset limit).response ≠ Outcome.crash := by
  constructor
  · rfl
  · intro c
    unfold DownloadList
    cases hp : paginate offset limit <;> simp [hp]

/-- Counterexample to claim C5 as stated: an in-window event whose change-tag
set contains the tag download beside another tag is not counted by the code
(the query compares the changes column for equality with the single tag),
and an event stamped after now is counted by the code although the claimed
half-open window (now - 24h, now] excludes it. -/
theorem countDistinctIPs_spec_mismatch :
    countDistinctDownloadIPs [⟨"O1", "1.1.1.1", "u", EventKind.updated, ["download", "refund"], -100⟩] "O1" 0 ≠
      specCountDistinctAccessIPs [⟨"O1", "1.1.1.1", "u", EventKind.updated, ["download", "refund"], -100⟩] "O1" 0 ∧
    countDistinctDownloadIPs [⟨"O1", "2.2.2.2", "u", EventKind.updated, ["download"], 5⟩] "O1" 0 ≠
      specCountDistinctAccessIPs [⟨"O1", "2.2.2.2", "u", EventKind.updated, ["download"], 5⟩] "O1" 0 := by
  constructor <;> decide

/-- Claim C5 (amended): the rate-limiter count equals the number of distinct
source addresses among ledger events for the given order whose change-tag
list is exactly [download] and whose timestamp is strictly later than
now - 24h, with no upper bound at now; events with other tag lists or other
orders are never counted. -/
theorem countDistinctIPs_eq_amended (events : List Event) (orderID : String) (now : Int) :
    countDistinctDownloadIPs events orderID now =
      amendedCountDistinctAccessIPs events orderID now := by
  have hfil : events.filter (isDownloadEventRow orderID now) =
      events.filter (fun e => e.orderID == orderID && e.changes == ["download"] &&
        decide (now - 24*60*60 < e.createdAt)) := by
    apply List.filter_congr
    intro e _
    unfold isDownloadEventRow
    cases e.orderID == orderID <;> cases e.changes == ["download"] <;>
      cases decide (now - 24*60*60 < e.createdAt) <;> rfl
  unfold countDistinctDownloadIPs amendedCountDistinctAccessIPs
  rw [List.card_toFinset, hfil]

/-- Counterexample to claim C1 as stated: at a concrete store, when the audit
unit of work cannot commit, the caller still receives the success result
carrying the signed download - not an internal error - although the store is
unchanged. -/
theorem downloadURL_commit_failure_still_success :
    (DownloadURL ⟨[⟨"D1", "O1", 0, ""⟩], [⟨"O1", "U1", "paid"⟩], []⟩ "D1"
        (some ⟨"U1", false⟩) "9.9.9.9" 1000 false true).response =
      Outcome.ok ⟨"D1", "O1", 0, "signed:D1"⟩ ∧
    (DownloadURL ⟨[⟨"D1", "O1", 0, ""⟩], [⟨"O1", "U1", "paid"⟩], []⟩ "D1"
        (some ⟨"U1", false⟩) "9.9.9.9" 1000 false true).db =
      ⟨[⟨"D1", "O1", 0, ""⟩], [⟨"O1", "U1", "paid"⟩], []⟩ :=
  ⟨rfl, rfl⟩

/-- Claim C1 (amended): when the audit unit of work cannot commit both
writes, neither write is observable afterward - the download counter and the
ledger are exactly as before the call - but the caller receives the success
result carrying the signed URL: the commit failure is silently ignored, no
internal error is reported. -/
theorem downloadURL_commit_failure_atomic_silent (db : DB) (did : String)
    (claims : Option Claims) (addr : String) (now : Int) (d : Download) (o : Order)
    (hd : findDownload db did = some d) (ho : findOrder db d.orderID = some o)
    (hacc : hasOrderAccess claims o = true) (hpaid : o.paymentState = PaidState)
    (hrate : countDistinctDownloadIPs db.events o.id now ≤ maxIPsPerDay) :
    (DownloadURL db did claims addr now false true).db = db ∧
    (DownloadURL db did claims addr now false true).response = Outcome.ok (signURL d) := by
  unfold DownloadURL
  simp [hd, ho, hacc, hpaid, Nat.not_lt.mpr hrate]

/-- Concrete instance of the amended theorem for claim C1. -/
theorem downloadURL_commit_failure_atomic_silent_witness :
    (DownloadURL ⟨[⟨"D3", "O3", 4, ""⟩], [⟨"O3", "U3", "paid"⟩], []⟩ "D3"
        (some ⟨"U3", false⟩) "8.8.8.8" 2000 false true).db =
      ⟨[⟨"D3", "O3", 4, ""⟩], [⟨"O3", "U3", "paid"⟩], []⟩ ∧
    (DownloadURL ⟨[⟨"D3", "O3", 4, ""⟩], [⟨"O3", "U3", "paid"⟩], []⟩ "D3"
        (some ⟨"U3", false⟩) "8.8.8.8" 2000 false true).response =
      Outcome.ok (signURL ⟨"D3", "O3", 4, ""⟩) :=
  downloadURL_commit_failure_atomic_silent _ _ _ _ _ ⟨"D3", "O3", 4, ""⟩ ⟨"O3", "U3", "paid"⟩
    rfl rfl rfl rfl (by decide)

/-- Claim C4: once the download and order are loaded and the entitlement
checks pass, the rate limiter denies access with Unauthorized exactly when
the distinct-IP count strictly exceeds 50; at a count of at most 50 the
request is admitted and reaches the URL signer. -/
theorem downloadURL_rate_limit_boundary (db : DB) (did : String) (claims : Option Claims)
    (addr : String) (now : Int) (signErr commitErr : Bool) (d : Download) (o : Order)
    (hd : findDownload db did = some d) (ho : findOrder db d.orderID = some o)
    (hacc : hasOrderAccess claims o = true) (hpaid : o.paymentState = PaidState) :
    ((DownloadURL db did claims addr now signErr commitErr).response =
        Outcome.err (ApiError.unauthorized
          "This download has been accessed from too many IPs within the last day")
      ↔ maxIPsPerDay < countDistinctDownloadIPs db.events o.id now) ∧
    (Step.signCall ∈ (DownloadURL db did claims addr now signErr commitErr).trace
      ↔ countDistinctDownloadIPs db.events o.id now ≤ maxIPsPerDay) := by
  by_cases hrate : countDistinctDownloadIPs db.events o.id now > maxIPsPerDay
  · unfold DownloadURL
    simp [hd, ho, hacc, hpaid, hrate]
  · unfold DownloadURL
    cases signErr <;> cases commitErr <;> simp [hd, ho, hacc, hpaid, hrate] <;> omega

/-- Concrete instance of the theorem for claim C4: 51 distinct addresses in the window trigger the denial. -/
theorem downloadURL_rate_limit_boundary_witness :
    maxIPsPerDay < countDistinctDownloadIPs
      ((List.range 51).map (fun i => ⟨"O1", toString i, "u", EventKind.updated, ["download"], 900⟩))
      "O1" 1000 ∧
    (DownloadURL ⟨[⟨"D1", "O1", 0, ""⟩], [⟨"O1", "U1", "paid"⟩],
        ((List.range 51).map (fun i => ⟨"O1", toString i, "u", EventKind.updated, ["download"], 900⟩))⟩
        "D1" (some ⟨"U1", false⟩) "9.9.9.9" 1000 false false).response =
      Outcome.err (ApiError.unauthorized
        "This download has been accessed from too many IPs within the last day") := by
  have h := downloadURL_rate_limit_boundary
    ⟨[⟨"D1", "O1", 0, ""⟩], [⟨"O1", "U1", "paid"⟩],
      ((List.range 51).map (fun i => ⟨"O1", toString i, "u", EventKind.updated, ["download"], 900⟩))⟩
    "D1" (some ⟨"U1", false⟩) "9.9.9.9" 1000 false false
    ⟨"D1", "O1", 0, ""⟩ ⟨"O1", "U1", "paid"⟩ rfl rfl rfl rfl
  have hlt : maxIPsPerDay < countDistinctDownloadIPs
      ((List.range 51).map (fun i => ⟨"O1", toString i, "u", EventKind.updated, ["download"], 900⟩))
      "O1" 1000 := by decide
  exact ⟨hlt, h.1.mpr hlt⟩

/-- Claim C6: in every execution of the download-access operation, if the
URL-signing capability is invoked then the download and order were found,
both entitlement checks (ownership and paid state) passed and the rate-limit
check passed; contrapositively, on any earlier failure the pipeline
terminates without calling the signer. -/
theorem downloadURL_sign_called_implies_checks (db : DB) (did : String) (claims : Option Claims)
    (addr : String) (now : Int) (signErr commitErr : Bool)
    (h : Step.signCall ∈ (DownloadURL db did claims addr now signErr commitErr).trace) :
    ∃ d o, findDownload db did = some d ∧ findOrder db d.orderID = some o ∧
      hasOrderAccess claims o = true ∧ o.paymentState = PaidState ∧
      countDistinctDownloadIPs db.events o.id now ≤ maxIPsPerDay := by
  obtain hd | ⟨d, hd⟩ := Option.eq_none_or_eq_some (findDownload db did)
  · unfold DownloadURL at h
    simp [hd] at h
  · obtain ho | ⟨o, ho⟩ := Option.eq_none_or_eq_some (findOrder db d.orderID)
    · unfold DownloadURL at h
      simp [hd, ho] at h
    · by_cases hacc : hasOrderAccess claims o
      · by_cases hpaid : o.paymentState = PaidState
        · by_cases hrate : countDistinctDownloadIPs db.events o.id now > maxIPsPerDay
          · unfold DownloadURL at h
            simp [hd, ho, hacc, hpaid, hrate] at h
          · exact ⟨d, o, hd, ho, hacc, hpaid, by omega⟩
        · unfold DownloadURL at h
          simp [hd, ho, hacc, hpaid] at h
      · unfold DownloadURL at h
        simp [hd, ho, hacc] at h

/-- Concrete instance of the theorem for claim C6: a successful run calls the signer and all checks hold. -/
theorem downloadURL_sign_called_implies_checks_witness :
    Step.signCall ∈ (DownloadURL ⟨[⟨"D1", "O1", 0, ""⟩], [⟨"O1", "U1", "paid"⟩], []⟩ "D1"
        (some ⟨"U1", false⟩) "9.9.9.9" 1000 false false).trace ∧
    (∃ d o, findDownload ⟨[⟨"D1", "O1", 0, ""⟩], [⟨"O1", "U1", "paid"⟩], []⟩ "D1" = some d ∧
      findOrder ⟨[⟨"D1", "O1", 0, ""⟩], [⟨"O1", "U1", "paid"⟩], []⟩ d.orderID = some o ∧
      hasOrderAccess (some ⟨"U1", false⟩) o = true ∧ o.paymentState = PaidState ∧
      countDistinctDownloadIPs ([] : List Event) o.id 1000 ≤ maxIPsPerDay) :=
  ⟨by decide, downloadURL_sign_called_implies_checks
    ⟨[⟨"D1", "O1", 0, ""⟩], [⟨"O1", "U1", "paid"⟩], []⟩ "D1" (some ⟨"U1", false⟩)
    "9.9.9.9" 1000 false false (by decide)⟩

/-- Looking a download up by id after the counter increment for that id finds
the same record with the counter one higher. -/
theorem find_incrementDownloadCount (l : List Download) (id : String) :
    List.find? (fun x => x.id == id) (incrementDownloadCount l id) =
      (List.find? (fun x => x.id == id) l).map
        (fun d => { d with downloadCount := d.downloadCount + 1 }) := by
  induction l with
  | nil => rfl
  | cons a l ih =>
    simp only [incrementDownloadCount, List.map_cons] at ih ⊢
    by_cases h : (a.id == id) = true
    · have h2 : (({ a with downloadCount := a.downloadCount + 1 } : Download).id == id) = true := h
      rw [if_pos h]
      simp only [List.find?, h2, h]
      rfl
    · have hf : (a.id == id) = false := by simpa using h
      rw [if_neg h]
      simp only [List.find?, hf, ih]

/-- A ledger with no download-tagged events for the order yields a zero
distinct-IP count. -/
theorem countDistinct_zero_of_no_download_events (events : List Event) (oid : String) (now : Int)
    (h : ∀ e ∈ events, e.orderID = oid → e.changes ≠ ["download"]) :
    countDistinctDownloadIPs events oid now = 0 := by
  unfold countDistinctDownloadIPs
  have hnil : events.filter (isDownloadEventRow oid now) = [] := by
    rw [List.filter_eq_nil_iff]
    intro e he hp
    unfold isDownloadEventRow at hp
    simp only [Bool.and_eq_true, beq_iff_eq, decide_eq_true_eq] at hp
    exact h e he hp.1.1 hp.2
  rw [hnil]
  rfl

/-- Claim C8: starting from a paid order with a download owned by it, a zero
counter and no download-tagged ledger events for the order, a call by the
owner of the order succeeds: it returns the download carrying a signed URL,
the stored download counter becomes 1, and the ledger gains exactly one new
event for that order tagged [download] carrying the caller source address;
the recorded actor identity is empty when the caller is anonymous. -/
theorem downloadURL_first_owner_success (db : DB) (did addr : String) (now : Int)
    (c : Claims) (d : Download) (o : Order)
    (hd : findDownload db did = some d) (ho : findOrder db d.orderID = some o)
    (howner : c.subject = o.userID) (hpaid : o.paymentState = PaidState)
    (hzero : d.downloadCount = 0)
    (hnoev : ∀ e ∈ db.events, e.orderID = o.id → e.changes ≠ ["download"]) :
    (DownloadURL db did (some c) addr now false false).response = Outcome.ok (signURL d) ∧
    findDownload (DownloadURL db did (some c) addr now false false).db did =
      some { d with downloadCount := 1 } ∧
    (DownloadURL db did (some c) addr now false false).db.events =
      db.events ++ [⟨o.id, addr, c.subject, EventKind.updated, ["download"], now⟩] ∧
    eventSubject none = "" := by
  have hacc : hasOrderAccess (some c) o = true := by
    simp [hasOrderAccess, howner]
  have hcnt := countDistinct_zero_of_no_download_events db.events o.id now hnoev
  have hdid : d.id = did := by
    have hfs := List.find?_some hd
    simpa using hfs
  have hrate : ¬ (countDistinctDownloadIPs db.events o.id now > maxIPsPerDay) := by
    rw [hcnt]
    simp [maxIPsPerDay]
  have hrun : DownloadURL db did (some c) addr now false false =
      ⟨Outcome.ok (signURL d),
        { db with downloads := incrementDownloadCount db.downloads d.id,
                  events := LogEvent db.events addr (eventSubject (some c)) o.id
                    EventKind.updated ["download"] now },
        [Step.storeQuery, Step.storeQuery, Step.storeQuery, Step.signCall, Step.txCommit]⟩ := by
    unfold DownloadURL
    simp [hd, ho, hacc, hpaid, hrate]
  refine ⟨?_, ?_, ?_, rfl⟩
  · rw [hrun]
  · rw [hrun]
    show List.find? (fun x => x.id == did) (incrementDownloadCount db.downloads d.id) =
      some { d with downloadCount := 1 }
    rw [hdid, find_incrementDownloadCount]
    have hfind : List.find? (fun x => x.id == did) db.downloads = some d := hd
    rw [hfind]
    simp [hzero, hdid]
  · rw [hrun]
    simp [LogEvent, eventSubject]

/-- Concrete instance of the theorem for claim C8: the scenario with one paid order, one download and an empty ledger. -/
theorem downloadURL_first_owner_success_witness :
    (DownloadURL ⟨[⟨"D1", "O1", 0, ""⟩], [⟨"O1", "U1", "paid"⟩], []⟩ "D1"
        (some ⟨"U1", false⟩) "9.9.9.9" 1000 false false).response =
      Outcome.ok (signURL ⟨"D1", "O1", 0, ""⟩) ∧
    findDownload (DownloadURL ⟨[⟨"D1", "O1", 0, ""⟩], [⟨"O1", "U1", "paid"⟩], []⟩ "D1"
        (some ⟨"U1", false⟩) "9.9.9.9" 1000 false false).db "D1" =
      some ⟨"D1", "O1", 1, ""⟩ ∧
    (DownloadURL ⟨[⟨"D1", "O1", 0, ""⟩], [⟨"O1", "U1", "paid"⟩], []⟩ "D1"
        (some ⟨"U1", false⟩) "9.9.9.9" 1000 false false).db.events =
      [] ++ [⟨"O1", "9.9.9.9", "U1", EventKind.updated, ["download"], 1000⟩] ∧
    eventSubject none = "" :=
  downloadURL_first_owner_success ⟨[⟨"D1", "O1", 0, ""⟩], [⟨"O1", "U1", "paid"⟩], []⟩
    "D1" "9.9.9.9" 1000 ⟨"U1", false⟩ ⟨"D1", "O1", 0, ""⟩ ⟨"O1", "U1", "paid"⟩
    rfl rfl rfl rfl rfl (by decide)

/-- Counterexample to claim C9 as stated: at a concrete store, a listing call
with a negative offset does access the store (the order lookup precedes the
pagination validation), and with an unknown order id the same negative
offset yields NotFound, not BadRequest. -/
theorem downloadList_negative_offset_touches_store :
    Step.storeQuery ∈ (DownloadList ⟨[⟨"D1", "O1", 0, ""⟩], [⟨"O1", "U1", "paid"⟩], []⟩ "O1"
        (some ⟨"U1", false⟩) (-1) 10).trace ∧
    (DownloadList ⟨[⟨"D1", "O1", 0, ""⟩], [⟨"O1", "U1", "paid"⟩], []⟩ "OX"
        (some ⟨"U1", false⟩) (-1) 10).response =
      Outcome.err (ApiError.notFound "Download order not found") := by
  constructor
  · decide
  · rfl

/-- Claim C9 (amended): a listing call with a negative offset or limit fails
with a BadRequest error once the pre-pagination steps succeed (order found,
caller entitled and order paid when an order id is given; identified caller
otherwise), but the order lookup touches the store before the pagination
parameters are validated; no downloads query is issued after the validation
fails. -/
theorem downloadList_negative_pagination (db : DB) (orderID : String) (claims : Option Claims)
    (offset limit : Int) (hneg : offset < 0 ∨ limit < 0) :
    (∀ o : Order, orderID ≠ "" → findOrder db orderID = some o →
      hasOrderAccess claims o = true → o.paymentState = PaidState →
      DownloadList db orderID claims offset limit =
        ⟨Outcome.err (ApiError.badRequest "Bad Pagination Parameters"), [Step.storeQuery]⟩) ∧
    (∀ c : Claims, orderID = "" → claims = some c →
      DownloadList db orderID claims offset limit =
        ⟨Outcome.err (ApiError.badRequest "Bad Pagination Parameters"), []⟩) := by
  have hpag : paginate offset limit = some (ApiError.badRequest "Bad Pagination Parameters") := by
    unfold paginate
    rcases hneg with h | h <;> simp [h]
  constructor
  · intro o hne ho hacc hpaid
    unfold DownloadList
    simp [hne, ho, hacc, hpaid, hpag]
  · intro c he hc
    subst he
    subst hc
    unfold DownloadList
    simp [hpag]

/-- Concrete instance of the amended theorem for claim C9, on both listing paths. -/
theorem downloadList_negative_pagination_witness :
    ((-1 : Int) < 0 ∨ (10 : Int) < 0) ∧
    DownloadList ⟨[⟨"D1", "O1", 0, ""⟩], [⟨"O1", "U1", "paid"⟩], []⟩ "O1"
        (some ⟨"U1", false⟩) (-1) 10 =
      ⟨Outcome.err (ApiError.badRequest "Bad Pagination Parameters"), [Step.storeQuery]⟩ ∧
    DownloadList ⟨[⟨"D1", "O1", 0, ""⟩], [⟨"O1", "U1", "paid"⟩], []⟩ ""
        (some ⟨"U1", false⟩) (-1) 10 =
      ⟨Outcome.err (ApiError.badRequest "Bad Pagination Parameters"), []⟩ :=
  ⟨Or.inl (by decide),
    (downloadList_negative_pagination ⟨[⟨"D1", "O1", 0, ""⟩], [⟨"O1", "U1", "paid"⟩], []⟩
      "O1" (some ⟨"U1", false⟩) (-1) 10 (Or.inl (by decide))).1
      ⟨"O1", "U1", "paid"⟩ (by decide) rfl rfl rfl,
    (downloadList_negative_pagination ⟨[⟨"D1", "O1", 0, ""⟩], [⟨"O1", "U1", "paid"⟩], []⟩
      "" (some ⟨"U1", false⟩) (-1) 10 (Or.inl (by decide))).2
      ⟨"U1", false⟩ rfl rfl⟩

end GoCommerce
